import Mathlib

/-!
Verification of the CDU_GYM_RESERVE reservation core.

This file shallowly embeds the decision logic of `core/request_flow.py`
and `runner.py` in Lean 4 and proves properties of the embedding.

Modelling conventions:
* Python machine-independent `int` is `Int`; occupancy ratios (Python
  `float` division of small integers) are modelled exactly as `ℚ`.
* Python `dict[str, str]` objects are association lists with
  first-occurrence lookup, in-place overwrite and `setdefault` append.
* Fallible Python code (statements that can raise) returns `Except String`;
  an `.error` value models an uncaught Python exception.
* BeautifulSoup / the network are external collaborators: the DOM of a
  parsed document and the bytes of each HTTP response are supplied by an
  environment record, while every decision made *on* those values is
  embedded from the source.
-/

/-! ## Python string and dict primitives -/

/-- Character-list version of Python `startswith` at the current position. -/
def startsWithChars : List Char → List Char → Bool
  | [], _ => true
  | _ :: _, [] => false
  | a :: as, b :: bs => a == b && startsWithChars as bs

/-- Character-list version of Python substring containment. -/
def hasSubChars (needle : List Char) : List Char → Bool
  | [] => needle.isEmpty
  | c :: t => startsWithChars needle (c :: t) || hasSubChars needle t

/-- Python `needle in hay` on strings (substring containment; the empty
needle is contained in everything, as in Python). -/
def pyIn (needle hay : String) : Bool :=
  hasSubChars needle.data hay.data

/-- Python truthiness of a string: nonempty. -/
def pyStrTruthy (s : String) : Bool := !s.isEmpty

/-- Python truthiness of an `Optional[str]`: present and nonempty. -/
def pyOptStrTruthy : Option String → Bool
  | none => false
  | some s => pyStrTruthy s

/-- Python `s.startswith(pre)`. -/
def pyStartsWith (s pre : String) : Bool :=
  startsWithChars pre.data s.data

/-- Python `str.strip()` (modelled with Lean's whitespace predicate; the
exact whitespace alphabet differs marginally from Python's and is only
used for blank-detection and around integer literals here). -/
def pyStrip (s : String) : String :=
  String.mk (((s.data.dropWhile Char.isWhitespace).reverse.dropWhile Char.isWhitespace).reverse)

/-- Digits of a decimal literal. -/
def decDigitsVal : List Char → Int
  | [] => 0
  | c :: t => (c.toNat - '0'.toNat : Int) * (10 : Int) ^ t.length + decDigitsVal t

/-- Python `int(s)` on an already-stripped string: optional sign followed by
one or more ASCII digits (digit-group underscores are not modelled; no
claim depends on them). `none` models a raised `ValueError`. -/
def pyInt (s : String) : Option Int :=
  let core : List Char → Option Int := fun ds =>
    if ds.isEmpty then none
    else if ds.all (·.isDigit) then some (decDigitsVal ds) else none
  match s.data with
  | '-' :: rest => (core rest).map (fun n => -n)
  | '+' :: rest => core rest
  | l => core l

/-- Python `min(iterable_of_indices, default=d)`. -/
def pyMinD (l : List Nat) (d : Nat) : Nat :=
  match l with
  | [] => d
  | x :: xs => xs.foldl Nat.min x

/-- Python `s.split(sep, 1)` restricted to a 1-character separator: the text
before the first occurrence and the text after it (`none` if absent). -/
def pySplitOnce (sep : Char) (s : String) : Option (String × String) :=
  let rec go (acc : List Char) : List Char → Option (String × String)
    | [] => none
    | c :: t => if c == sep then some (String.mk acc.reverse, String.mk t) else go (c :: acc) t
  go [] s.data

/-- Association-list lookup, modelling `dict.get(k)` (`none` = key absent). -/
def dget (d : List (String × String)) (k : String) : Option String :=
  (d.find? (fun p => p.1 == k)).map (·.2)

/-- `dict[k] = v`: overwrite the first binding of `k`, else append. -/
def dset (d : List (String × String)) (k v : String) : List (String × String) :=
  match d with
  | [] => [(k, v)]
  | p :: t => if p.1 == k then (k, v) :: t else p :: dset t k v

/-- `dict.setdefault(k, v)`: append only when the key is absent. -/
def dsetdefault (d : List (String × String)) (k v : String) : List (String × String) :=
  match dget d k with
  | some _ => d
  | none => d ++ [(k, v)]

/-! ## Course catalog parser (`parse_courses_from_html`)

BeautifulSoup's HTML parsing is external: a `LiItem` records, for one
`<li>` of `ul.course_list`, the results of the source's `select_one`
queries (`none` = element absent) together with the relevant text or
attribute payloads.  Everything the source then *does* with those query
results is embedded below. -/

/-- The `a.course_link` anchor: its `href` attribute (`none` = attribute
absent; `a.get("href", "")` then yields `""`). -/
structure LiAnchor where
  href : Option String
deriving DecidableEq, Repr

/-- One `<li>` of the course list, as seen through the source's selectors.
`name_text` / `date_b_text` carry `get_text(strip=True)` of the matched
element; `thumbs_span_text` carries the raw `.text` of the occupancy span;
`status_classes` carries the `class` attribute list of the status node. -/
structure LiItem where
  course_link : Option LiAnchor
  name_text : Option String
  date_b_text : Option String
  thumbs_span_text : Option String
  status_classes : Option (List String)
deriving DecidableEq, Repr

/-- A parsed course record (the dict built at request_flow.py:130-139). -/
structure CourseR where
  title : String
  time : String
  taken : Int
  total : Int
  status : String
  href : String
deriving DecidableEq, Repr

/-- Occupancy parsing (request_flow.py:115-121): requires a span whose text
contains `/`; both halves of the stripped text must parse as ints, else the
`except` clause keeps the `(0, 0)` default. -/
def parseOccupancy (sp : Option String) : Int × Int :=
  match sp with
  | none => (0, 0)
  | some s =>
    if pyIn "/" s then
      match pySplitOnce '/' (pyStrip s) with
      | none => (0, 0)
      | some (l, r) =>
        match pyInt (pyStrip l), pyInt (pyStrip r) with
        | some a, some b => (a, b)
        | _, _ => (0, 0)
    else (0, 0)

/-- Status extraction (request_flow.py:122-129): first of the fixed
vocabulary that occurs as a substring of the space-joined class list. -/
def parseStatus (cls : Option (List String)) : String :=
  match cls with
  | none => "unknown"
  | some l =>
    let joined := String.intercalate " " l
    match ["available", "hot", "full", "stop", "queue"].find? (fun st => pyIn st joined) with
    | some st => st
    | none => "unknown"

/-- One iteration of the parsing loop (request_flow.py:108-139).
`none` = the item was skipped (no `a.course_link`).  A missing title or
time element makes the source evaluate `({}).get_text(strip=True)`, which
raises `AttributeError` — modelled as `.error`. -/
def parseLi (li : LiItem) : Except String (Option CourseR) :=
  match li.course_link with
  | none => Except.ok none
  | some a =>
    let href := a.href.getD ""
    match li.name_text with
    | none => Except.error "AttributeError: dict object has no attribute get_text"
    | some title =>
      match li.date_b_text with
      | none => Except.error "AttributeError: dict object has no attribute get_text"
      | some timer =>
        let (taken, total) := parseOccupancy li.thumbs_span_text
        let status := parseStatus li.status_classes
        Except.ok (some ⟨title, timer, taken, total, status, href⟩)

/-- `parse_courses_from_html` (request_flow.py:105-140) over the parsed DOM:
document order is preserved; the first raising item aborts the whole call. -/
def parse_courses_from_html : List LiItem → Except String (List CourseR)
  | [] => Except.ok []
  | li :: rest =>
    match parseLi li with
    | Except.error e => Except.error e
    | Except.ok none => parse_courses_from_html rest
    | Except.ok (some c) =>
      match parse_courses_from_html rest with
      | Except.error e => Except.error e
      | Except.ok cs => Except.ok (c :: cs)

/-! ## Course selector (`_keyword_match`, `_score_course`, `select_course`) -/

/-- `_keyword_match` (request_flow.py:143-147). -/
def keyword_match (value : String) (keywords : List String) : Bool :=
  if keywords.isEmpty then true
  else keywords.any (fun kw => pyIn kw value)

/-- Keyword rank: index of the first truthy keyword contained in the text,
`999` when none matches (the `min(..., default=999)` of request_flow.py:151-158). -/
def kwRank (keywords : List String) (text : String) : Nat :=
  pyMinD ((keywords.enum.filterMap
    (fun p => if pyStrTruthy p.2 && pyIn p.2 text then some p.1 else none))) 999

/-- `_score_course` (request_flow.py:150-162); the float ratio is modelled
exactly in `ℚ`. -/
def score_course (c : CourseR) (title_keywords time_keywords : List String) : Nat × Nat × ℚ :=
  let kw_rank := kwRank title_keywords c.title
  let time_rank := kwRank time_keywords c.time
  let ratio : ℚ := if c.total ≠ 0 then (c.taken : ℚ) / (c.total : ℚ) else 1
  (kw_rank, time_rank, ratio)

/-- Lexicographic `≤` on score tuples: the comparison Python's stable sort
performs on the keys supplied by `_score_course`. -/
def tupleLE (a b : Nat × Nat × ℚ) : Prop :=
  a.1 < b.1 ∨ (a.1 = b.1 ∧ (a.2.1 < b.2.1 ∨ (a.2.1 = b.2.1 ∧ a.2.2 ≤ b.2.2)))

instance (a b : Nat × Nat × ℚ) : Decidable (tupleLE a b) := by
  unfold tupleLE; infer_instance

/-- The selector's ranking relation on courses for fixed keyword lists. -/
def scoreLE (tk tmk : List String) (a b : CourseR) : Prop :=
  tupleLE (score_course a tk tmk) (score_course b tk tmk)

instance (tk tmk : List String) : DecidableRel (scoreLE tk tmk) := fun a b => by
  unfold scoreLE; infer_instance

/-- Bookable statuses (`_AVAILABLE_STATUSES`, request_flow.py:27). -/
def isBookable (c : CourseR) : Bool :=
  ["available", "hot", "queue"].contains c.status

/-- The candidate pool chosen at request_flow.py:178-193 before sorting:
`none` is the strict/no-fallback `NO_MATCH` early return (and, vacuously,
the empty-available case handled before it in `select_course`). -/
def candidatePool (courses : List CourseR) (title_keywords time_keywords : List String)
    (strict_match allow_fallback : Bool) : Option (List CourseR) :=
  let available := courses.filter isBookable
  if available.isEmpty then none
  else
    let strict_pool := available.filter
      (fun c => keyword_match c.title title_keywords && keyword_match c.time time_keywords)
    if strict_match then
      if !strict_pool.isEmpty then some strict_pool
      else if allow_fallback then some available
      else none
    else some (if !strict_pool.isEmpty then strict_pool else available)

/-- `select_course` (request_flow.py:165-199).  Python's `sorted` (stable,
ascending by the `_score_course` key) is modelled by `List.insertionSort`
with the reflexive key relation — for a total preorder key the output of
any stable sort is unique, so the two agree element for element. -/
def select_course (courses : List CourseR) (title_keywords time_keywords : List String)
    (strict_match allow_fallback : Bool) : Option CourseR × Option String :=
  let available := courses.filter isBookable
  if available.isEmpty then
    if !courses.isEmpty then (none, some "COURSE_FULL")
    else (none, some "NO_MATCH")
  else
    match candidatePool courses title_keywords time_keywords strict_match allow_fallback with
    | none => (none, some "NO_MATCH")
    | some candidates =>
      ((candidates.insertionSort (scoreLE title_keywords time_keywords)).head?, none)

/-! ## Regex scanners

`re.search` of the three concrete patterns used by `run_once`, implemented
as leftmost-position scanners.  For each pattern the greedy quantifiers are
deterministic (the character class of a quantified atom is disjoint from
the first character of what follows), so no backtracking is needed. -/

/-- Match a literal, returning the remaining text. -/
def dropLit : List Char → List Char → Option (List Char)
  | [], cs => some cs
  | _ :: _, [] => none
  | p :: ps, c :: cs => if p == c then dropLit ps cs else none

/-- Drop one optional `"` (the pattern atom `\"?`). -/
def dropOptQuote : List Char → List Char
  | '"' :: t => t
  | l => l

/-- Try `name="course_id"\s+value="(\d+)"` at the current position,
returning the captured digit group. -/
def matchNamedCourseId (cs : List Char) : Option String :=
  match dropLit "name=\"course_id\"".data cs with
  | none => none
  | some r1 =>
    let (sp, r2) := r1.span (·.isWhitespace)
    if sp.isEmpty then none
    else
      match dropLit "value=\"".data r2 with
      | none => none
      | some r3 =>
        let (ds, r4) := r3.span (·.isDigit)
        if ds.isEmpty then none
        else
          match r4 with
          | '"' :: _ => some (String.mk ds)
          | _ => none

/-- Try `course_id\"?\s*[:=]\s*\"?(\d+)` at the current position. -/
def matchLooseCourseId (cs : List Char) : Option String :=
  match dropLit "course_id".data cs with
  | none => none
  | some r1 =>
    let r2 := dropOptQuote r1
    let (_, r3) := r2.span (·.isWhitespace)
    match r3 with
    | [] => none
    | c :: r4 =>
      if c == ':' || c == '=' then
        let (_, r5) := r4.span (·.isWhitespace)
        let r6 := dropOptQuote r5
        let (ds, _) := r6.span (·.isDigit)
        if ds.isEmpty then none else some (String.mk ds)
      else none

/-- Try `[?&]id=(\d+)` at the current position. -/
def matchQueryId (cs : List Char) : Option String :=
  match cs with
  | [] => none
  | c :: r1 =>
    if c == '?' || c == '&' then
      match dropLit "id=".data r1 with
      | none => none
      | some r2 =>
        let (ds, _) := r2.span (·.isDigit)
        if ds.isEmpty then none else some (String.mk ds)
    else none

/-- `re.search`: try the matcher at every position, leftmost match wins. -/
def reSearch (m : List Char → Option String) : List Char → Option String
  | [] => m []
  | c :: t =>
    match m (c :: t) with
    | some r => some r
    | none => reSearch m t

/-- `re.search(r'name="course_id"\s+value="(\d+)"', text)` (request_flow.py:458). -/
def searchNamedCourseId (text : String) : Option String := reSearch matchNamedCourseId text.data

/-- `re.search(r"course_id\"?\s*[:=]\s*\"?(\d+)", text)` (request_flow.py:459). -/
def searchLooseCourseId (text : String) : Option String := reSearch matchLooseCourseId text.data

/-- `re.search(r"[?&]id=(\d+)", order_url)` (request_flow.py:408). -/
def searchQueryId (text : String) : Option String := reSearch matchQueryId text.data

/-! ## Order field harvester (`extract_hidden_fields`) -/

/-- The order page DOM as seen through the harvester's selectors:
`hiddenInputs` lists each `input[type='hidden'][name]` as (name attribute,
optional value attribute) in document order; `selects` lists each
`select[name]` as (name, payload) where the payload is `none` when the
select has no `<option>` at all and otherwise carries the selected (or
first) option's optional `value` attribute. -/
structure OrderDom where
  hiddenInputs : List (String × Option String)
  selects : List (String × Option (Option String))
deriving DecidableEq, Repr

/-- `extract_hidden_fields` (request_flow.py:230-246). -/
def extract_hidden_fields (dom : OrderDom) : List (String × String) :=
  let fields := dom.hiddenInputs.foldl
    (fun fs p => if !pyStrTruthy p.1 then fs else dset fs p.1 (p.2.getD "")) []
  let fields := dom.selects.foldl
    (fun fs p =>
      match p.2 with
      | none => fs
      | some optv => if pyStrTruthy p.1 then dsetdefault fs p.1 (optv.getD "") else fs)
    fields
  let fields := dsetdefault fields "note" ""
  let fields := dsetdefault fields "quantity"
    (match dget fields "quantity" with
     | some v => if pyStrTruthy v then v else "1"
     | none => "1")
  dsetdefault fields "is_waiting"
    (match dget fields "is_waiting" with
     | some v => if pyStrTruthy v then v else ""
     | none => "")

/-! ## Membership card resolver -/

/-- One card row scraped from the user-card page (request_flow.py:270-276);
rows lacking either identifier are skipped by the scraper (an external
collaborator here) and never reach this model. -/
structure CardR where
  name : String
  member_card_id : String
  card_cat_id : String
deriving DecidableEq, Repr

/-- The inner `score` function of `pick_card_by_keywords`
(request_flow.py:284-289): index of the first truthy keyword contained in
the card name, 999 otherwise. -/
def cardScoreGo (i : Nat) (kws : List String) (text : String) : Nat :=
  match kws with
  | [] => 999
  | kw :: rest => if pyStrTruthy kw && pyIn kw text then i else cardScoreGo (i + 1) rest text

/-- `score(card)` for `pick_card_by_keywords`. -/
def cardScore (card : CardR) (keywords : List String) : Nat :=
  cardScoreGo 0 keywords card.name

/-- `pick_card_by_keywords` (request_flow.py:280-291); Python's stable
`sorted` is modelled by `List.insertionSort` as for `select_course`. -/
def pick_card_by_keywords (cards : List CardR) (keywords : List String) : Option CardR :=
  if cards.isEmpty then none
  else (cards.insertionSort
    (fun a b => cardScore a keywords ≤ cardScore b keywords)).head?

/-! ## Reservation pipeline (`run_once`) -/

/-- Keyword families (request_flow.py:28-32). -/
def _BUSY_KEYWORDS : List String := ["系统繁忙", "稍后再试", "操作频繁", "频繁"]
def _FULL_KEYWORDS : List String := ["课程已满", "排队", "不在可预约时间", "已满", "名额已满", "约满"]
def _LOGIN_KEYWORDS : List String := ["请先登录", "登录后访问", "手机号", "验证码"]
def _CARD_KEYWORDS : List String := ["请选择会员卡", "会员卡", "卡"]
def _SUCCESS_KEYWORDS : List String := ["成功", "预约成功", "success"]

/-- `any(word in text for word in kws)`. -/
def anyKw (kws : List String) (text : String) : Bool := kws.any (fun w => pyIn w text)

def BASE : String := "https://www.styd.cn"

/-- `norm_url` (request_flow.py:202-207). -/
def norm_url (href : String) : String :=
  if pyStartsWith href "http" then href
  else if pyStartsWith href "/" then BASE ++ href
  else BASE ++ "/" ++ href

/-- `RunRequest` (request_flow.py:45-57), with its dataclass defaults. -/
structure RunRequest where
  cookie : String
  date : String
  shop_id : String
  title_keywords : List String
  time_keywords : List String
  strict_match : Bool := true
  allow_fallback : Bool := true
  preferred_card_keywords : Option (List String) := none
  default_member_card_id : Option String := some "13413533"
  default_card_cat_id : Option String := some "8566400"
  default_course_id : Option String := some "8225475"
deriving DecidableEq, Repr

/-- The `course` field of an outcome: either the full parsed course dict
(intermediate failures) or the final three-key summary dict. -/
inductive CourseInfo
  | parsed (c : CourseR)
  | summary (title time href : String)
deriving DecidableEq, Repr

/-- `RunOutcome` (request_flow.py:60-72), with its dataclass defaults. -/
structure RunOutcome where
  success : Bool
  reason : String
  http_status : Option Int
  code : Option Int
  msg : Option String
  req_id : Option String
  course : Option CourseInfo
  final_url : Option String := none
  evidence : Option String := none
  raw_response : Option String := none
  retry_recommended : Bool := false
deriving DecidableEq, Repr

/-- Exceptions of `fetch_search` as caught at request_flow.py:332-363. -/
inductive SearchExc
  | httpError (status : Option Int) (errStr : String)
  | otherExc (errStr : String)
deriving DecidableEq, Repr

/-- The search response JSON, projected to the fields `run_once` reads.
`classItems` is the BeautifulSoup parse of `classList` (the HTML-to-DOM
step is an external collaborator).  The JSON value is assumed to be a
dict, as every `isinstance(search_data, dict)` guard in the source then
passes. -/
structure SearchJson where
  classList : Option String
  classItems : List LiItem
  msg : Option String
  code : Option Int
deriving DecidableEq, Repr

/-- An HTTP response as `run_once` reads it (`url` = final URL after
redirects, `""` modelling a falsy url). -/
structure HttpResp where
  status : Int
  url : String
  text : String
deriving DecidableEq, Repr

/-- The order page: raw response plus its parsed DOM. -/
structure OrderPage where
  resp : HttpResp
  dom : OrderDom
deriving DecidableEq, Repr

/-- The order-confirm response JSON dict, when the body parses as one. -/
structure ConfirmJson where
  code : Option Int
  msg : Option String
  req_id : Option String
deriving DecidableEq, Repr

/-- The response returned by `post_order_confirm` (its internal bounded
micro-retry only chooses *which* network response comes back, so the
environment supplies the final one directly). `json = none` models a body
that is not a JSON dict. -/
structure ConfirmResp where
  status : Int
  url : String
  text : String
  json : Option ConfirmJson
deriving DecidableEq, Repr

deriving instance DecidableEq for Except

/-- The network/library environment of one `run_once` call. -/
structure Env where
  search : Sum SearchExc SearchJson
  orderPage : OrderPage
  cards : Except String (List CardR)
  confirm : ConfirmResp
deriving DecidableEq, Repr

/-- Python `f"...{x}..."` rendering of an `Optional[int]`. -/
def pyShowOptInt : Option Int → String
  | none => "None"
  | some i => toString i

/-- Python `f"...{x}..."` rendering of an `Optional[str]`. -/
def pyShowOptStr : Option String → String
  | none => "None"
  | some s => s

/-- Python `f"...{b}..."` rendering of a bool. -/
def pyShowBool (b : Bool) : String := if b then "True" else "False"

/-- The course-id recovery block of `run_once` (request_flow.py:456-465):
only entered when the harvested `course_id` is falsy AND a truthy default
course id was supplied; tries the named pattern, then the loose pattern,
then `setdefault`s the caller-supplied default. -/
def recoverCourseId (fields : List (String × String)) (pageText : String)
    (defaultCourseId : Option String) : List (String × String) :=
  if !pyOptStrTruthy (dget fields "course_id") && pyOptStrTruthy defaultCourseId then
    let fields1 :=
      match searchNamedCourseId pageText with
      | some v => dset fields "course_id" v
      | none =>
        match searchLooseCourseId pageText with
        | some v => dset fields "course_id" v
        | none => fields
    dsetdefault fields1 "course_id" (defaultCourseId.getD "")
  else fields

/-- The card-resolution block of `run_once` (request_flow.py:480-512):
either an early `CARD_MISSING` outcome or the updated field dict. -/
def resolveCardFields (request : RunRequest) (fields : List (String × String))
    (orderStatus : Int) (selected : CourseR) (finalOrderUrl : String)
    (cardsResult : Except String (List CardR)) : Sum RunOutcome (List (String × String)) :=
  let preferred_keywords := request.preferred_card_keywords.getD []
  if !pyOptStrTruthy (dget fields "member_card_id") || !pyOptStrTruthy (dget fields "card_cat_id") then
    let (cards, last_err) :=
      match cardsResult with
      | Except.error e => (([] : List CardR), e)
      | Except.ok cs => (cs, "")
    let chosen := pick_card_by_keywords cards preferred_keywords
    match chosen with
    | some ch =>
      Sum.inr (dsetdefault (dsetdefault fields "member_card_id" ch.member_card_id)
        "card_cat_id" ch.card_cat_id)
    | none =>
      match cards with
      | first :: _ =>
        Sum.inr (dsetdefault (dsetdefault fields "member_card_id" first.member_card_id)
          "card_cat_id" first.card_cat_id)
      | [] =>
        if pyOptStrTruthy request.default_member_card_id
            && pyOptStrTruthy request.default_card_cat_id then
          Sum.inr (dsetdefault
            (dsetdefault fields "member_card_id" (request.default_member_card_id.getD ""))
            "card_cat_id" (request.default_card_cat_id.getD ""))
        else if !pyOptStrTruthy (dget fields "member_card_id")
            || !pyOptStrTruthy (dget fields "card_cat_id") then
          Sum.inl {
            success := false
            reason := "CARD_MISSING"
            http_status := some orderStatus
            code := none
            msg := some (if pyStrTruthy last_err then last_err else "未找到可用卡")
            req_id := none
            course := some (CourseInfo.parsed selected)
            final_url := some finalOrderUrl
            evidence := some "未能解析到 member_card_id/card_cat_id" }
        else Sum.inr fields
  else Sum.inr fields

/-- The outcome built when `fetch_search` raises `requests.HTTPError`
(request_flow.py:332-351). -/
def searchHttpErrorOutcome (status : Option Int) (errStr : String) : RunOutcome :=
  let reason :=
    if status == some 401 || status == some 403 then "COOKIE_INVALID"
    else if status == some 429 then "RATE_LIMIT"
    else "UNKNOWN"
  { success := false, reason, http_status := status, code := none
    msg := some errStr, req_id := none, course := none, final_url := none
    evidence := some ("search HTTP error: status=" ++ pyShowOptInt status ++ " err=" ++ errStr)
    retry_recommended := reason == "RATE_LIMIT" }

/-- The outcome built when `fetch_search` raises any other exception
(request_flow.py:352-363). -/
def searchOtherExcOutcome (errStr : String) : RunOutcome :=
  { success := false, reason := "UNKNOWN", http_status := none, code := none
    msg := some errStr, req_id := none, course := none, final_url := none
    evidence := some ("search exception: " ++ errStr) }

/-- The outcome built when the search response carries a blank
`class_list` fragment (request_flow.py:366-382). -/
def emptyCatalogOutcome (sj : SearchJson) : RunOutcome :=
  let msg := sj.msg
  let reason :=
    if pyOptStrTruthy msg && anyKw _BUSY_KEYWORDS (msg.getD "") then "RATE_LIMIT"
    else "COOKIE_INVALID"
  { success := false, reason, http_status := none, code := sj.code
    msg, req_id := none, course := none, final_url := none
    evidence := some ("search data missing class_list msg=" ++ pyShowOptStr msg)
    retry_recommended := reason == "RATE_LIMIT" }

/-- The outcome built when `select_course` returns no course
(request_flow.py:392-405). -/
def selectFailOutcome (request : RunRequest) (sj : SearchJson)
    (failure_reason : Option String) : RunOutcome :=
  let reason := failure_reason.getD "NO_MATCH"
  let msg := if reason == "NO_MATCH" then "课程未匹配" else "目标课程不可预约"
  { success := false, reason, http_status := none, code := sj.code
    msg := some msg, req_id := none, course := none, final_url := none
    evidence := some ("选课失败: reason=" ++ reason ++ " strict="
      ++ pyShowBool request.strict_match ++ " allow_fallback="
      ++ pyShowBool request.allow_fallback) }

/-- The submit-and-classify tail of `run_once` (request_flow.py:532-596):
POST the confirmation (the final response is `confirm`) and classify the
result. -/
def confirmOutcome (selected_course : CourseR) (order_url : String)
    (confirm : ConfirmResp) : RunOutcome :=
  let http_status := confirm.status
  let final_confirm_url := if pyStrTruthy confirm.url then confirm.url else order_url
  let text_head := confirm.text.take 300
  let codeMsgReq : Option Int × Option String × Option String :=
    match confirm.json with
    | some cj => (cj.code, cj.msg, cj.req_id)
    | none => (none, some text_head, none)
  let code := codeMsgReq.1
  let msg := codeMsgReq.2.1
  let req_id := codeMsgReq.2.2
  let success :=
    (match confirm.json with
     | some cj => cj.code == some 200
     | none => false)
    || (pyOptStrTruthy msg && anyKw _SUCCESS_KEYWORDS (msg.getD ""))
    || (pyStrTruthy confirm.text && anyKw _SUCCESS_KEYWORDS confirm.text)
  let body := confirm.text
  let reason :=
    if success then "OK"
    else if pyIn "/login" final_confirm_url
        || pyIn "/passport" final_confirm_url then "REDIRECT_LOGIN"
    else if anyKw _BUSY_KEYWORDS body then "RATE_LIMIT"
    else if anyKw _CARD_KEYWORDS body then "CARD_MISSING"
    else if anyKw _FULL_KEYWORDS body then "COURSE_FULL"
    else if anyKw _LOGIN_KEYWORDS body then "REDIRECT_LOGIN"
    else "UNKNOWN"
  let evidence :=
    if success then
      "order_confirm成功: code=" ++ pyShowOptInt code ++ " msg=" ++ pyShowOptStr msg
    else
      "order_confirm返回: code=" ++ pyShowOptInt code ++ " msg="
        ++ (match msg with
            | some m => if pyStrTruthy m then m else text_head
            | none => text_head)
  { success, reason, http_status := some http_status, code, msg, req_id
    course := some (CourseInfo.summary selected_course.title
      selected_course.time order_url)
    final_url := some final_confirm_url
    evidence := some evidence
    raw_response := some text_head
    retry_recommended := reason == "RATE_LIMIT" }

/-- The order-page stage of `run_once` (request_flow.py:407-596): fetch
the order page, harvest and repair fields, resolve the card, submit.
Factored out of `run_once` per the source's early-exit structure. -/
def orderStage (request : RunRequest) (selected_course : CourseR)
    (orderPage : OrderPage) (cards : Except String (List CardR))
    (confirm : ConfirmResp) : RunOutcome :=
  let order_url := norm_url selected_course.href
  let class_id := (searchQueryId order_url).getD ""
  let order_response := orderPage.resp
  let final_order_url :=
    if pyStrTruthy order_response.url then order_response.url else order_url
  if order_response.status ≠ 200 then
    { success := false, reason := "UNKNOWN", http_status := some order_response.status
      code := none, msg := some "订单页拉取失败", req_id := none
      course := some (CourseInfo.parsed selected_course)
      final_url := some final_order_url
      evidence := some ("订单页返回状态码 " ++ toString order_response.status) }
  else if (pyIn "/login" final_order_url || pyIn "/passport" final_order_url)
      && !pyIn "course/order" final_order_url then
    { success := false, reason := "COOKIE_INVALID"
      http_status := some order_response.status, code := none
      msg := some "订单页重定向至登录", req_id := none
      course := some (CourseInfo.parsed selected_course)
      final_url := some final_order_url
      evidence := some ("订单页被重定向到 " ++ final_order_url) }
  else if anyKw _LOGIN_KEYWORDS order_response.text then
    { success := false, reason := "COOKIE_INVALID"
      http_status := some order_response.status, code := none
      msg := some "页面提示需要登录", req_id := none
      course := some (CourseInfo.parsed selected_course)
      final_url := some final_order_url
      evidence := some ("订单页提示登录: " ++ order_response.text.take 120) }
  else
    let fields0 := extract_hidden_fields orderPage.dom
    let fields1 :=
      if pyStrTruthy class_id then dsetdefault fields0 "class_id" class_id else fields0
    let fields := recoverCourseId fields1 order_response.text request.default_course_id
    if !pyOptStrTruthy (dget fields "course_id") then
      { success := false, reason := "COURSE_ID_MISSING"
        http_status := some order_response.status, code := none
        msg := some "未解析到 course_id", req_id := none
        course := some (CourseInfo.parsed selected_course)
        final_url := some final_order_url
        evidence := some "订单页缺少 course_id 字段" }
    else
      match resolveCardFields request fields order_response.status selected_course
          final_order_url cards with
      | Sum.inl outcome => outcome
      | Sum.inr fields2 =>
        if !pyOptStrTruthy (dget fields2 "member_card_id")
            || !pyOptStrTruthy (dget fields2 "card_cat_id") then
          { success := false, reason := "CARD_MISSING"
            http_status := some order_response.status, code := none
            msg := some "缺少卡信息", req_id := none
            course := some (CourseInfo.parsed selected_course)
            final_url := some final_order_url
            evidence := some "提交订单所需卡信息缺失" }
        else
          confirmOutcome selected_course order_url confirm

/-- `run_once` (request_flow.py:328-596) as a pure function of the request
and the network environment, composed of the stage functions above in the
source's order.  An `.error` result models an uncaught Python exception
(only the parser can raise here; network exceptions at the search step are
caught by the source and already folded into `Env.search`). -/
def run_once (request : RunRequest) (env : Env) : Except String RunOutcome :=
  match env.search with
  | Sum.inl (SearchExc.httpError status errStr) =>
    Except.ok (searchHttpErrorOutcome status errStr)
  | Sum.inl (SearchExc.otherExc errStr) =>
    Except.ok (searchOtherExcOutcome errStr)
  | Sum.inr sj =>
    if !pyStrTruthy (pyStrip (sj.classList.getD "")) then
      Except.ok (emptyCatalogOutcome sj)
    else
      match parse_courses_from_html sj.classItems with
      | Except.error e => Except.error e
      | Except.ok courses =>
        match select_course courses request.title_keywords request.time_keywords
            request.strict_match request.allow_fallback with
        | (none, failure_reason) =>
          Except.ok (selectFailOutcome request sj failure_reason)
        | (some selected_course, _) =>
          Except.ok (orderStage request selected_course env.orderPage env.cards env.confirm)

/-! ## Task orchestrator (`runner.py`)

Wall-clock time is abstract: a clock function gives the value of
`time.monotonic()` observed at the top of each retry-loop iteration, and a
`PyClock` oracle supplies `datetime.now()`-derived data for date
resolution.  The pipeline itself is an oracle `ℕ → RunOutcome` giving the
outcome of the k-th `run_once` call (a raising `run_once` would propagate
out of `_run_single_task` and produce no record; such runs are outside
this model). -/

/-- `AccountConfig` (config.py:10-14). -/
structure AccountConfig where
  name : String
  cookie : String
  preferred_cards : List String := []
deriving DecidableEq, Repr

/-- `TaskConfig` (config.py:17-25), with its dataclass defaults. -/
structure TaskConfig where
  title_keywords : List String := []
  time_keywords : List String := []
  date : Option String := none
  strict_match : Bool := true
  allow_fallback : Bool := true
  max_attempts : Int := 1
  delay_ms : Int × Int := (120, 300)
deriving DecidableEq, Repr

/-- `AppConfig` (config.py:28-36). -/
structure AppConfig where
  shop_id : String
  accounts : List AccountConfig := []
  tasks : List TaskConfig := []
  date_rule : Option String := none
  global_timeout_ms : Option Int := none
  concurrency : Int := 1
  log_json : Bool := false
deriving DecidableEq, Repr

/-- `TaskOverrides` (runner.py:15-23). -/
structure TaskOverrides where
  date : Option String := none
  title_keywords : Option (List String) := none
  time_keywords : Option (List String) := none
  strict_match : Option Bool := none
  allow_fallback : Option Bool := none
  max_attempts : Option Int := none
  delay_ms : Option (Int × Int) := none
deriving DecidableEq, Repr

/-- `TaskRuntimeSpec` (runner.py:26-37). -/
structure TaskRuntimeSpec where
  index : Nat
  account : AccountConfig
  original : TaskConfig
  date : String
  title_keywords : List String
  time_keywords : List String
  strict_match : Bool
  allow_fallback : Bool
  max_attempts : Int
  delay_ms : Int × Int
deriving DecidableEq, Repr

/-- `TaskExecutionRecord` (runner.py:40-44). -/
structure TaskExecutionRecord where
  spec : TaskRuntimeSpec
  outcome : RunOutcome
  attempts : Nat
deriving DecidableEq, Repr

/-- Date-related observations of `datetime.now()`: the local hour, today's
ISO date, and today+n days in ISO form (date arithmetic is external). -/
structure PyClock where
  hour : Int
  todayIso : String
  todayPlus : Nat → String

/-- `_compute_rule_date` (runner.py:47-55); a falsy rule yields `None`. -/
def _compute_rule_date (rule : Option String) (clk : PyClock) : Option String :=
  if !pyOptStrTruthy rule then none
  else if rule == some "plus_7_after_17" then
    some (clk.todayPlus (if clk.hour < 17 then 6 else 7))
  else none

/-- `_resolve_date` (runner.py:58-66); note the truthiness (not mere
presence) tests on each candidate. -/
def _resolve_date (task : TaskConfig) (overrides : TaskOverrides) (date_rule : Option String)
    (clk : PyClock) : String :=
  if pyOptStrTruthy overrides.date then overrides.date.getD ""
  else if pyOptStrTruthy task.date then task.date.getD ""
  else
    match _compute_rule_date date_rule clk with
    | some rule_date => if pyStrTruthy rule_date then rule_date else clk.todayIso
    | none => clk.todayIso

/-- `_resolve_keywords` (runner.py:69-72): override replaces, never merges. -/
def _resolve_keywords (source : List String) (override : Option (List String)) : List String :=
  match override with
  | none => source
  | some l => l

/-- `_resolve_delay` (runner.py:75-79): any present 2-tuple is truthy. -/
def _resolve_delay (task : TaskConfig) (overrides : TaskOverrides) : Int × Int :=
  match overrides.delay_ms with
  | some (a, b) => (a, b)
  | none => task.delay_ms

/-- `_resolve_bool` (runner.py:82-85). -/
def _resolve_bool (value : Bool) (override : Option Bool) : Bool :=
  match override with
  | none => value
  | some b => b

/-- `_resolve_attempts` (runner.py:88-91). -/
def _resolve_attempts (task : TaskConfig) (overrides : TaskOverrides) : Int :=
  match overrides.max_attempts with
  | none => max 1 task.max_attempts
  | some v => max 1 v

/-- The default task used when no tasks are configured (runner.py:100-102). -/
def defaultTaskConfig : TaskConfig := {}

/-- `_build_runtime_specs` (runner.py:94-119). -/
def _build_runtime_specs (config : AppConfig) (overrides : TaskOverrides) (clk : PyClock) :
    List TaskRuntimeSpec :=
  config.accounts.flatMap (fun account =>
    let tasks := if config.tasks.isEmpty then [defaultTaskConfig] else config.tasks
    tasks.enum.map (fun p =>
      let idx := p.1
      let task := p.2
      { index := idx
        account := account
        original := task
        date := _resolve_date task overrides config.date_rule clk
        title_keywords := _resolve_keywords task.title_keywords overrides.title_keywords
        time_keywords := _resolve_keywords task.time_keywords overrides.time_keywords
        strict_match := _resolve_bool task.strict_match overrides.strict_match
        allow_fallback := _resolve_bool task.allow_fallback overrides.allow_fallback
        max_attempts := _resolve_attempts task overrides
        delay_ms := _resolve_delay task overrides }))

/-- Observable events of the retry loop: the k-th pipeline invocation, and
the inter-attempt sleep taken after attempt k. -/
inductive REvent
  | call (k : Nat)
  | sleep (k : Nat)
deriving DecidableEq, Repr

/-- The synthetic outcome recorded when the global deadline has passed
(runner.py:128-136). -/
def timeoutOutcome : RunOutcome :=
  { success := false, reason := "UNKNOWN", http_status := none, code := none
    msg := some "Global timeout reached", req_id := none, course := none }

/-- The synthetic outcome recorded when the loop body never ran
(runner.py:156-165). -/
def notExecutedOutcome : RunOutcome :=
  { success := false, reason := "UNKNOWN", http_status := none, code := none
    msg := some "未执行", req_id := none, course := none }

/-- The `if deadline and time.monotonic() > deadline` guard at the top of
iteration `k` (runner.py:127); a deadline of exactly `0` is falsy. -/
def deadlinePassed (deadline : Option ℚ) (clock : Nat → ℚ) (k : Nat) : Bool :=
  match deadline with
  | none => false
  | some d => d ≠ 0 && clock k > d

/-- State threaded through the retry loop of `_run_single_task`. -/
structure LoopSt where
  outcome : Option RunOutcome
  attempts : Nat
  trace : List REvent
deriving DecidableEq, Repr

/-- The `for attempt in range(1, max_attempts + 1)` loop of
`_run_single_task` (runner.py:125-155), iterating over the list of
remaining attempt numbers. -/
def taskLoopGo (maxAttempts : Int) (deadline : Option ℚ) (clock : Nat → ℚ)
    (pipeline : Nat → RunOutcome) : List Nat → LoopSt → LoopSt
  | [], st => st
  | a :: rest, st =>
    let st := { st with attempts := a }
    if deadlinePassed deadline clock a then
      { st with outcome := some timeoutOutcome }
    else
      let o := pipeline a
      let st := { st with outcome := some o, trace := st.trace ++ [REvent.call a] }
      if o.success then st
      else if !o.retry_recommended || (a : Int) == maxAttempts then st
      else taskLoopGo maxAttempts deadline clock pipeline rest
        { st with trace := st.trace ++ [REvent.sleep a] }

/-- `_run_single_task` (runner.py:122-166).  `pipeline k` is the outcome of
the k-th `run_once` call on the `RunRequest` built from `spec` and
`shop_id`; the random inter-attempt sleep duration is irrelevant to the
record and appears in the trace as an `REvent.sleep`. -/
def _run_single_task (spec : TaskRuntimeSpec) (deadline : Option ℚ) (clock : Nat → ℚ)
    (pipeline : Nat → RunOutcome) : TaskExecutionRecord × List REvent :=
  let attemptNumbers := List.range' 1 spec.max_attempts.toNat
  let st := taskLoopGo spec.max_attempts deadline clock pipeline attemptNumbers
    { outcome := none, attempts := 0, trace := [] }
  let outcome := st.outcome.getD notExecutedOutcome
  ({ spec := spec, outcome := outcome, attempts := st.attempts }, st.trace)

/-- The per-account grouping dict of `run_tasks` (runner.py:186-188):
`setdefault`-append grouping, preserving first-appearance order of names. -/
def groupByAccountName (specs : List TaskRuntimeSpec) : List (String × List TaskRuntimeSpec) :=
  specs.foldl
    (fun groups spec =>
      let rec add : List (String × List TaskRuntimeSpec) → List (String × List TaskRuntimeSpec)
        | [] => [(spec.account.name, [spec])]
        | g :: t => if g.1 == spec.account.name then (g.1, g.2 ++ [spec]) :: t else g :: add t
      add groups)
    []

/-- `run_tasks` (runner.py:169-211).  The bounded worker pool only permutes
the completion (hence logging) order of an account's records; since the
records are re-sorted by the original task index — unique within an
account — before being returned, the concurrent branch returns the same
list as the sequential one and is modelled by it.  `clock spec k` is the
monotonic time seen at the top of iteration `k` of `spec`'s retry loop;
`pipeline spec k` is the outcome of that spec's k-th `run_once` call;
`startTime` is the `time.monotonic()` sampled when the deadline is armed. -/
def run_tasks (config : AppConfig) (overrides : Option TaskOverrides)
    (shop_id_override : Option String) (clk : PyClock) (startTime : ℚ)
    (clock : TaskRuntimeSpec → Nat → ℚ) (pipeline : TaskRuntimeSpec → Nat → RunOutcome) :
    List TaskExecutionRecord × List REvent :=
  let overridesR := overrides.getD {}
  let _shop_id :=
    match shop_id_override with
    | some s => if pyStrTruthy s then s else config.shop_id
    | none => config.shop_id
  let specs := _build_runtime_specs config overridesR clk
  if specs.isEmpty then ([], [])
  else
    let deadline :=
      match config.global_timeout_ms with
      | some ms => if ms ≠ 0 then some (startTime + (ms : ℚ) / 1000) else none
      | none => none
    let by_account := groupByAccountName specs
    by_account.foldl
      (fun acc group =>
        let account_records := group.2.map
          (fun spec => _run_single_task spec deadline (clock spec) (pipeline spec))
        let sorted_records := (account_records.map Prod.fst).insertionSort
          (fun r1 r2 => r1.spec.index ≤ r2.spec.index)
        (acc.1 ++ sorted_records, acc.2 ++ (account_records.map Prod.snd).flatten))
      ([], [])

/-! ## General lemmas about the embedded primitives -/

theorem tupleLE_refl (a : Nat × Nat × ℚ) : tupleLE a a := by
  unfold tupleLE
  exact Or.inr ⟨rfl, Or.inr ⟨rfl, le_refl _⟩⟩

theorem tupleLE_trans {a b c : Nat × Nat × ℚ} (h1 : tupleLE a b) (h2 : tupleLE b c) :
    tupleLE a c := by
  unfold tupleLE at h1 h2 ⊢
  rcases h1 with h1 | ⟨e1, h1⟩
  · rcases h2 with h2 | ⟨e2, _⟩
    · exact Or.inl (lt_trans h1 h2)
    · exact Or.inl (e2 ▸ h1)
  · rcases h2 with h2 | ⟨e2, h2⟩
    · exact Or.inl (e1 ▸ h2)
    · refine Or.inr ⟨e1.trans e2, ?_⟩
      rcases h1 with h1 | ⟨f1, h1⟩
      · rcases h2 with h2 | ⟨f2, _⟩
        · exact Or.inl (lt_trans h1 h2)
        · exact Or.inl (f2 ▸ h1)
      · rcases h2 with h2 | ⟨f2, h2⟩
        · exact Or.inl (f1 ▸ h2)
        · exact Or.inr ⟨f1.trans f2, le_trans h1 h2⟩

theorem tupleLE_total (a b : Nat × Nat × ℚ) : tupleLE a b ∨ tupleLE b a := by
  unfold tupleLE
  rcases lt_trichotomy a.1 b.1 with h | h | h
  · exact Or.inl (Or.inl h)
  · rcases lt_trichotomy a.2.1 b.2.1 with h' | h' | h'
    · exact Or.inl (Or.inr ⟨h, Or.inl h'⟩)
    · rcases le_total a.2.2 b.2.2 with h'' | h''
      · exact Or.inl (Or.inr ⟨h, Or.inr ⟨h', h''⟩⟩)
      · exact Or.inr (Or.inr ⟨h.symm, Or.inr ⟨h'.symm, h''⟩⟩)
    · exact Or.inr (Or.inr ⟨h.symm, Or.inl h'⟩)
  · exact Or.inr (Or.inl h)

instance (tk tmk : List String) : IsTotal CourseR (scoreLE tk tmk) :=
  ⟨fun _ _ => tupleLE_total _ _⟩

instance (tk tmk : List String) : IsTrans CourseR (scoreLE tk tmk) :=
  ⟨fun _ _ _ => tupleLE_trans⟩

/-- The head of a stable insertion sort by a total transitive reflexive
relation is a member of the list that the relation carries to everything
in the list. -/
theorem insertionSort_head_min {α : Type} (r : α → α → Prop) [DecidableRel r]
    [IsTotal α r] [IsTrans α r] (l : List α) (c : α)
    (h : (l.insertionSort r).head? = some c) : c ∈ l ∧ ∀ x ∈ l, r c x := by
  have hrefl : ∀ x : α, r x x := fun x => by
    rcases IsTotal.total (r := r) x x with hx | hx <;> exact hx
  have hs := List.sorted_insertionSort r l
  have hp := List.perm_insertionSort r l
  cases hl : l.insertionSort r with
  | nil => rw [hl] at h; simp at h
  | cons y ys =>
    rw [hl] at h
    simp only [List.head?_cons, Option.some.injEq] at h
    subst h
    rw [hl] at hs hp
    refine ⟨hp.subset (List.mem_cons_self _ _), fun x hx => ?_⟩
    rcases List.mem_cons.mp (hp.symm.subset hx) with rfl | hx'
    · exact hrefl _
    · exact List.rel_of_sorted_cons hs _ hx'

theorem pyMinD_zero_cons (xs : List Nat) (d : Nat) : pyMinD (0 :: xs) d = 0 := by
  unfold pyMinD
  induction xs with
  | nil => rfl
  | cons x xs ih => simpa [Nat.zero_min] using ih

/-! ## C1: the parser on items with missing title/time elements -/

/-- **C1** (code_bug evidence). The spec claims `parse_courses_from_html`
never raises and substitutes `""` for a missing title.  On a list item
that has an `a.course_link` anchor but no `.course_detail .name` element,
the source evaluates `({}).get_text(strip=True)` (request_flow.py:113) and
raises `AttributeError` instead: the embedded call returns the modelled
exception, not a record with an empty title. -/
theorem c1_missing_title_raises :
    parse_courses_from_html
      [⟨some ⟨some "/m/e74abd6e/course/order?id=1"⟩, none, some "10:00-11:00", none, none⟩]
      = Except.error "AttributeError: dict object has no attribute get_text" := by
  rfl

/-! ## C2: selector reasons when nothing is bookable -/

/-- **C2**. When no course has a bookable status, `select_course` returns
`(none, "NO_MATCH")` on an empty input list and `(none, "COURSE_FULL")` on
a non-empty one (request_flow.py:172-176). -/
theorem c2_empty_vs_full :
    ∀ (courses : List CourseR) (tk tmk : List String) (strict fb : Bool),
      courses.filter isBookable = [] →
      (courses = [] → select_course courses tk tmk strict fb = (none, some "NO_MATCH")) ∧
      (courses ≠ [] → select_course courses tk tmk strict fb = (none, some "COURSE_FULL")) := by
  intro courses tk tmk strict fb h
  constructor
  · intro hc
    subst hc
    rfl
  · intro hc
    simp [select_course, h, hc]

/-- Witness for C2 at concrete inputs. -/
theorem c2_empty_vs_full_witness :
    select_course [⟨"t", "x", 0, 0, "full", "h"⟩] ["A"] [] true true
        = (none, some "COURSE_FULL")
      ∧ select_course [] ["A"] [] true true = (none, some "NO_MATCH") :=
  ⟨(c2_empty_vs_full [⟨"t", "x", 0, 0, "full", "h"⟩] ["A"] [] true true (by decide)).2
      (by decide),
    (c2_empty_vs_full [] ["A"] [] true true (by decide)).1 rfl⟩

/-! ## C3: ranking of bookable candidates -/

/-- **C3**. `select_course` returns a candidate that is minimal in the
candidate pool under the `_score_course` tuple order (title-keyword rank,
time-keyword rank, occupancy ratio with sentinel 999 / ratio 1 for
total = 0); in particular, with title keywords `["Yoga", "Pilates"]` and
two bookable courses matching `"Pilates"` and `"Yoga"` respectively, the
`"Yoga"`-matching course is selected in either document order. -/
theorem c3_ranking :
    (∀ (courses : List CourseR) (tk tmk : List String) (strict fb : Bool) (c : CourseR),
        select_course courses tk tmk strict fb = (some c, none) →
        ∃ cands, candidatePool courses tk tmk strict fb = some cands ∧
          c ∈ cands ∧ ∀ x ∈ cands, scoreLE tk tmk c x) ∧
    (∀ c1 c2 : CourseR,
        isBookable c1 = true → isBookable c2 = true →
        pyIn "Yoga" c1.title = false → pyIn "Pilates" c1.title = true →
        pyIn "Yoga" c2.title = true →
        select_course [c1, c2] ["Yoga", "Pilates"] [] true true = (some c2, none) ∧
        select_course [c2, c1] ["Yoga", "Pilates"] [] true true = (some c2, none)) := by
  constructor
  · intro courses tk tmk strict fb c h
    simp only [select_course] at h
    cases hav : (courses.filter isBookable).isEmpty with
    | true =>
      rw [hav] at h
      simp only [if_true] at h
      split at h <;> simp at h
    | false =>
      rw [hav] at h
      simp only [Bool.false_eq_true, if_false] at h
      cases hpool : candidatePool courses tk tmk strict fb with
      | none => rw [hpool] at h; simp at h
      | some cands =>
        rw [hpool] at h
        have hh : (cands.insertionSort (scoreLE tk tmk)).head? = some c := by
          simpa using congrArg Prod.fst h
        obtain ⟨hc, hmin⟩ := insertionSort_head_min (scoreLE tk tmk) cands c hh
        exact ⟨cands, rfl, hc, hmin⟩
  · intro c1 c2 hb1 hb2 hy1 hp1 hy2
    have hYe : ("Yoga" : String).isEmpty = false := rfl
    have hPe : ("Pilates" : String).isEmpty = false := rfl
    have r1 : kwRank ["Yoga", "Pilates"] c1.title = 1 := by
      simp [kwRank, List.enum, List.enumFrom, hy1, hp1, pyStrTruthy, pyMinD, hYe, hPe]
    have r2 : kwRank ["Yoga", "Pilates"] c2.title = 0 := by
      by_cases hp2 : pyIn "Pilates" c2.title <;>
        simp [kwRank, List.enum, List.enumFrom, hy2, hp2, pyStrTruthy, pyMinD, hYe, hPe]
    have hnot : ¬ scoreLE ["Yoga", "Pilates"] [] c1 c2 := by
      unfold scoreLE score_course tupleLE
      simp [r1, r2]
    have hyes : scoreLE ["Yoga", "Pilates"] [] c2 c1 := by
      unfold scoreLE score_course tupleLE
      simp [r1, r2]
    have km1 : keyword_match c1.title ["Yoga", "Pilates"] = true := by
      simp [keyword_match, hy1, hp1]
    have km2 : keyword_match c2.title ["Yoga", "Pilates"] = true := by
      simp [keyword_match, hy2]
    have kt : ∀ s : String, keyword_match s ([] : List String) = true := fun _ => rfl
    constructor
    · simp [select_course, candidatePool, hb1, hb2, km1, km2, kt,
        List.insertionSort, List.orderedInsert, hnot]
    · simp [select_course, candidatePool, hb1, hb2, km1, km2, kt,
        List.insertionSort, List.orderedInsert, hyes]

/-- Witness for C3: the Yoga/Pilates example at concrete courses, in both
document orders. -/
theorem c3_ranking_witness :
    select_course
        [⟨"Power Pilates", "x", 0, 0, "available", "h1"⟩,
          ⟨"Hot Yoga", "y", 5, 10, "hot", "h2"⟩]
        ["Yoga", "Pilates"] [] true true
        = (some ⟨"Hot Yoga", "y", 5, 10, "hot", "h2"⟩, none)
      ∧ select_course
        [⟨"Hot Yoga", "y", 5, 10, "hot", "h2"⟩,
          ⟨"Power Pilates", "x", 0, 0, "available", "h1"⟩]
        ["Yoga", "Pilates"] [] true true
        = (some ⟨"Hot Yoga", "y", 5, 10, "hot", "h2"⟩, none) :=
  c3_ranking.2 _ _ (by decide) (by decide) (by decide) (by decide) (by decide)

/-! ## C8: exactly-one-of-course-or-reason -/

theorem candidatePool_ne_nil {courses : List CourseR} {tk tmk : List String}
    {strict fb : Bool} {cands : List CourseR}
    (h : candidatePool courses tk tmk strict fb = some cands) : cands ≠ [] := by
  simp only [candidatePool] at h
  cases hav : (courses.filter isBookable).isEmpty with
  | true => rw [hav] at h; simp at h
  | false =>
    rw [hav] at h
    simp only [Bool.false_eq_true, if_false] at h
    have havne : courses.filter isBookable ≠ [] := by
      simpa [List.isEmpty_iff] using hav
    split at h
    · split at h
      · next hsp =>
        cases h
        simpa [List.isEmpty_iff] using hsp
      · split at h
        · cases h; exact havne
        · simp at h
    · cases h
      split
      · next hsp => simpa [List.isEmpty_iff] using hsp
      · exact havne

theorem candidatePool_isSome {courses : List CourseR} {tk tmk : List String}
    {strict fb : Bool}
    (hav : courses.filter isBookable ≠ [])
    (hc : strict = false ∨ fb = true ∨
      (courses.filter isBookable).filter
        (fun c => keyword_match c.title tk && keyword_match c.time tmk) ≠ []) :
    ∃ cands, candidatePool courses tk tmk strict fb = some cands := by
  simp only [candidatePool]
  have hav' : (courses.filter isBookable).isEmpty = false := by
    simpa [List.isEmpty_iff] using hav
  rw [hav']
  simp only [Bool.false_eq_true, if_false]
  cases strict with
  | false => exact ⟨_, rfl⟩
  | true =>
    cases hsp : ((courses.filter isBookable).filter
        (fun c => keyword_match c.title tk && keyword_match c.time tmk)).isEmpty with
    | false => simp [hsp]
    | true =>
      rcases hc with hc | hc | hc
      · exact absurd hc (by simp)
      · subst hc; simp [hsp]
      · exact absurd (List.isEmpty_iff.mp hsp) hc

theorem insertionSort_ne_nil {α : Type} (r : α → α → Prop) [DecidableRel r]
    {l : List α} (h : l ≠ []) : l.insertionSort r ≠ [] := by
  intro e
  have hl := List.length_insertionSort r l
  rw [e] at hl
  exact h (List.length_eq_zero.mp hl.symm)

/-- **C8** (counterexample to the claim as stated). With one bookable
course, strict matching, fallback disabled and a non-matching title
keyword, `select_course` returns `(none, "NO_MATCH")` even though the
bookable set is non-empty (request_flow.py:190-191). -/
theorem c8_counterexample :
    ([⟨"A class", "x", 0, 0, "available", "h"⟩] : List CourseR).filter isBookable ≠ []
      ∧ select_course [⟨"A class", "x", 0, 0, "available", "h"⟩] ["B"] [] true false
          = (none, some "NO_MATCH") := by
  decide

/-- **C8** (amended). `select_course` always returns exactly one of a
course or a failure reason (never both, never neither); and whenever the
bookable set is non-empty AND the strict/no-fallback `NO_MATCH` early
return does not apply (i.e. strict matching is off, or fallback is
allowed, or the strict pool is non-empty), it returns a course with no
failure reason. -/
theorem c8_exactly_one :
    ∀ (courses : List CourseR) (tk tmk : List String) (strict fb : Bool),
      ((select_course courses tk tmk strict fb).1.isSome
        ↔ (select_course courses tk tmk strict fb).2 = none) ∧
      (courses.filter isBookable ≠ [] →
        (strict = false ∨ fb = true ∨
          (courses.filter isBookable).filter
            (fun c => keyword_match c.title tk && keyword_match c.time tmk) ≠ []) →
        ∃ c, select_course courses tk tmk strict fb = (some c, none)) := by
  intro courses tk tmk strict fb
  constructor
  · simp only [select_course]
    cases hav : (courses.filter isBookable).isEmpty with
    | true =>
      rw [if_pos rfl]
      split <;> simp
    | false =>
      rw [if_neg (by simp)]
      cases hpool : candidatePool courses tk tmk strict fb with
      | none => simp
      | some cands =>
        have hne : cands ≠ [] := candidatePool_ne_nil hpool
        have hsne := insertionSort_ne_nil (scoreLE tk tmk) hne
        simp [Option.isSome_iff_ne_none, List.head?_eq_none_iff, hsne]
  · intro hav hc
    obtain ⟨cands, hpool⟩ := candidatePool_isSome hav hc
    have hav' : (courses.filter isBookable).isEmpty = false := by
      simpa [List.isEmpty_iff] using hav
    have hne : cands ≠ [] := candidatePool_ne_nil hpool
    have hsne := insertionSort_ne_nil (scoreLE tk tmk) hne
    obtain ⟨c, hc'⟩ : ∃ c, (cands.insertionSort (scoreLE tk tmk)).head? = some c := by
      cases hh : (cands.insertionSort (scoreLE tk tmk)).head? with
      | none => exact absurd (List.head?_eq_none_iff.mp hh) hsne
      | some c => exact ⟨c, rfl⟩
    refine ⟨c, ?_⟩
    simp [select_course, hav', hpool, hc']

/-- Witness for C8 (amended): one bookable course with vacuous keywords is
selected despite strict matching with fallback disabled. -/
theorem c8_exactly_one_witness :
    ∃ c, select_course [⟨"A class", "x", 0, 0, "available", "h"⟩] [] [] true false
        = (some c, none) :=
  (c8_exactly_one [⟨"A class", "x", 0, 0, "available", "h"⟩] [] [] true false).2
    (by decide) (by decide)

/-! ## C4: course-id recovery -/

theorem dget_dset (d : List (String × String)) (k v : String) :
    dget (dset d k v) k = some v := by
  induction d with
  | nil => simp [dget, dset]
  | cons p t ih =>
    by_cases hp : p.1 == k
    · simp [dget, dset, hp]
    · simp [dget, dset, hp] at ih ⊢
      simpa [dget] using ih

theorem dget_append_of_none {d : List (String × String)} {k : String}
    (h : dget d k = none) (rest : List (String × String)) :
    dget (d ++ rest) k = dget rest k := by
  have hf : List.find? (fun p => p.1 == k) d = none := by
    cases hh : List.find? (fun p => p.1 == k) d with
    | none => rfl
    | some p => rw [dget, hh] at h; simp at h
  rw [dget, List.find?_append, hf, Option.none_or, dget]

theorem pyStrTruthy_of_ne {v : String} (h : v ≠ "") : pyStrTruthy v = true := by
  unfold pyStrTruthy
  cases hv : v.isEmpty
  · rfl
  · exact absurd ((String.isEmpty_iff v).mp hv) h

theorem matchNamedCourseId_ne_empty {cs : List Char} {v : String}
    (h : matchNamedCourseId cs = some v) : v ≠ "" := by
  unfold matchNamedCourseId at h
  repeat' (first | split at h | dsimp only at h)
  all_goals
    first
    | exact Option.noConfusion h
    | (injection h with h
       subst h
       intro e
       have h2 : _ = ([] : List Char) := congrArg String.data e
       simp_all)

theorem matchLooseCourseId_ne_empty {cs : List Char} {v : String}
    (h : matchLooseCourseId cs = some v) : v ≠ "" := by
  unfold matchLooseCourseId at h
  repeat' (first | split at h | dsimp only at h)
  all_goals
    first
    | exact Option.noConfusion h
    | (injection h with h
       subst h
       intro e
       have h2 : _ = ([] : List Char) := congrArg String.data e
       simp_all)

theorem reSearch_imp {m : List Char → Option String} {P : String → Prop}
    (hm : ∀ cs v, m cs = some v → P v) :
    ∀ (l : List Char) (v : String), reSearch m l = some v → P v := by
  intro l
  induction l with
  | nil => intro v h; exact hm _ _ h
  | cons c t ih =>
    intro v h
    unfold reSearch at h
    split at h
    · next heq => cases h; exact hm _ _ heq
    · exact ih v h

/-- The concrete order page used for the C4 counterexample: its text
matches the named-attribute pattern, but its DOM carries no hidden
`course_id` input. -/
def c4PageText : String := "name=\"course_id\" value=\"123\""

def c4Dom : OrderDom := ⟨[], []⟩

/-- A request with NO default course id configured. -/
def c4Req : RunRequest :=
  { cookie := "", date := "d", shop_id := "s", title_keywords := [], time_keywords := []
    default_course_id := none }

def c4Env : Env :=
  { search := Sum.inr ⟨some "x",
      [⟨some ⟨some "/o?id=7"⟩, some "T", some "10", none, some ["available"]⟩], none, none⟩
    orderPage := ⟨⟨200, "", c4PageText⟩, c4Dom⟩
    cards := Except.ok []
    confirm := ⟨200, "", "", none⟩ }

def c4Outcome : RunOutcome :=
  { success := false, reason := "COURSE_ID_MISSING", http_status := some 200, code := none
    msg := some "未解析到 course_id", req_id := none
    course := some (CourseInfo.parsed ⟨"T", "10", 0, 0, "available", "/o?id=7"⟩)
    final_url := some "https://www.styd.cn/o?id=7"
    evidence := some "订单页缺少 course_id 字段" }

/-- **C4** (counterexample to the claim as stated). On an order page whose
harvested fields lack `course_id` and whose text matches the
named-attribute pattern `name="course_id" value="(digits)"`, the pipeline
still ends in `COURSE_ID_MISSING` when no default course id is supplied:
the whole recovery block at request_flow.py:456 is gated on
`request.default_course_id` being truthy, so neither regex is ever tried. -/
theorem c4_counterexample :
    dget (extract_hidden_fields c4Dom) "course_id" = none
      ∧ searchNamedCourseId c4PageText = some "123"
      ∧ c4Req.default_course_id = none
      ∧ run_once c4Req c4Env = Except.ok c4Outcome
      ∧ c4Outcome.reason = "COURSE_ID_MISSING" := by
  decide

/-- **C4** (amended). When a non-empty default course id IS supplied and
the harvested `course_id` is falsy, the recovery block tries, in order the
named-attribute pattern, then the loose pattern, then the caller default
(the latter filling in only when the key is absent altogether); a page
matching either pattern always leaves a truthy `course_id`, so it can
never produce `COURSE_ID_MISSING`. -/
theorem c4_recovery_order :
    ∀ (fields : List (String × String)) (pageText dflt : String),
      pyStrTruthy dflt = true →
      pyOptStrTruthy (dget fields "course_id") = false →
      ((∀ v, searchNamedCourseId pageText = some v →
          dget (recoverCourseId fields pageText (some dflt)) "course_id" = some v
          ∧ pyOptStrTruthy (dget (recoverCourseId fields pageText (some dflt)) "course_id")
              = true)
        ∧ (searchNamedCourseId pageText = none →
          ∀ v, searchLooseCourseId pageText = some v →
            dget (recoverCourseId fields pageText (some dflt)) "course_id" = some v
            ∧ pyOptStrTruthy (dget (recoverCourseId fields pageText (some dflt)) "course_id")
                = true)
        ∧ (searchNamedCourseId pageText = none → searchLooseCourseId pageText = none →
          dget fields "course_id" = none →
          dget (recoverCourseId fields pageText (some dflt)) "course_id" = some dflt)) := by
  intro fields pageText dflt h1 h2
  have hcond : (!pyOptStrTruthy (dget fields "course_id")
      && pyOptStrTruthy (some dflt)) = true := by
    rw [h2]
    simpa [pyOptStrTruthy] using h1
  refine ⟨?_, ?_, ?_⟩
  · intro v hv
    have hvne : v ≠ "" :=
      reSearch_imp (fun _ _ hw => matchNamedCourseId_ne_empty hw) _ v hv
    have hv' : reSearch matchNamedCourseId pageText.data = some v := hv
    have hre : recoverCourseId fields pageText (some dflt)
        = dsetdefault (dset fields "course_id" v) "course_id" dflt := by
      simp [recoverCourseId, hcond, hv, hv']
    have hd : dget (dset fields "course_id" v) "course_id" = some v := dget_dset _ _ _
    have hd2 : dget (recoverCourseId fields pageText (some dflt)) "course_id" = some v := by
      rw [hre]
      unfold dsetdefault
      rw [hd]
      exact hd
    refine ⟨hd2, ?_⟩
    rw [hd2]
    simpa [pyOptStrTruthy] using pyStrTruthy_of_ne hvne
  · intro hn v hv
    have hvne : v ≠ "" :=
      reSearch_imp (fun _ _ hw => matchLooseCourseId_ne_empty hw) _ v hv
    have hn' : reSearch matchNamedCourseId pageText.data = none := hn
    have hv' : reSearch matchLooseCourseId pageText.data = some v := hv
    have hre : recoverCourseId fields pageText (some dflt)
        = dsetdefault (dset fields "course_id" v) "course_id" dflt := by
      simp [recoverCourseId, hcond, hn, hv, hn', hv']
    have hd : dget (dset fields "course_id" v) "course_id" = some v := dget_dset _ _ _
    have hd2 : dget (recoverCourseId fields pageText (some dflt)) "course_id" = some v := by
      rw [hre]
      unfold dsetdefault
      rw [hd]
      exact hd
    refine ⟨hd2, ?_⟩
    rw [hd2]
    simpa [pyOptStrTruthy] using pyStrTruthy_of_ne hvne
  · intro hn1 hn2 habs
    have hn1' : reSearch matchNamedCourseId pageText.data = none := hn1
    have hn2' : reSearch matchLooseCourseId pageText.data = none := hn2
    have hre : recoverCourseId fields pageText (some dflt)
        = dsetdefault fields "course_id" dflt := by
      simp [recoverCourseId, hcond, hn1, hn2, hn1', hn2']
    have happ : dget (fields ++ [("course_id", dflt)]) "course_id" = some dflt := by
      rw [dget_append_of_none habs]
      simp [dget]
    rw [hre]
    unfold dsetdefault
    rw [habs]
    exact happ

/-- Witness for C4 (amended): with a supplied default, the named pattern
match on the counterexample page yields course id `123`. -/
theorem c4_recovery_order_witness :
    dget (recoverCourseId [] c4PageText (some "8225475")) "course_id" = some "123"
      ∧ pyOptStrTruthy (dget (recoverCourseId [] c4PageText (some "8225475")) "course_id")
          = true :=
  (c4_recovery_order [] c4PageText "8225475" (by decide) (by decide)).1 "123" (by decide)

/-! ## C5: only RATE_LIMIT is retry-recommended -/

theorem resolveCardFields_inl {req : RunRequest} {fields : List (String × String)}
    {st : Int} {sel : CourseR} {url : String} {cr : Except String (List CardR)}
    {oc : RunOutcome}
    (h : resolveCardFields req fields st sel url cr = Sum.inl oc) :
    oc.reason = "CARD_MISSING" ∧ oc.retry_recommended = false := by
  unfold resolveCardFields at h
  repeat' (first | split at h | dsimp only at h)
  all_goals
    first
    | exact Sum.noConfusion h
    | (injection h with h; subst h; exact ⟨rfl, rfl⟩)

theorem searchHttpErrorOutcome_retry (status : Option Int) (errStr : String)
    (hr : (searchHttpErrorOutcome status errStr).retry_recommended = true) :
    (searchHttpErrorOutcome status errStr).reason = "RATE_LIMIT" :=
  eq_of_beq hr

theorem emptyCatalogOutcome_retry (sj : SearchJson)
    (hr : (emptyCatalogOutcome sj).retry_recommended = true) :
    (emptyCatalogOutcome sj).reason = "RATE_LIMIT" :=
  eq_of_beq hr

theorem confirmOutcome_retry (sel : CourseR) (u : String) (confirm : ConfirmResp)
    (hr : (confirmOutcome sel u confirm).retry_recommended = true) :
    (confirmOutcome sel u confirm).reason = "RATE_LIMIT" :=
  eq_of_beq hr

theorem orderStage_retry {request : RunRequest} {sel : CourseR} {orderPage : OrderPage}
    {cards : Except String (List CardR)} {confirm : ConfirmResp} {oc : RunOutcome}
    (h : orderStage request sel orderPage cards confirm = oc)
    (hr : oc.retry_recommended = true) : oc.reason = "RATE_LIMIT" := by
  unfold orderStage at h
  repeat' (first | split at h | dsimp only at h)
  all_goals subst h
  all_goals
    first
    | exact (Bool.false_ne_true hr).elim
    | exact confirmOutcome_retry _ _ _ hr
    | (obtain ⟨hrs, hrr⟩ := resolveCardFields_inl (by assumption)
       rw [hrr] at hr
       exact (Bool.false_ne_true hr).elim)

/-- **C5**. Every outcome the pipeline returns has `retry_recommended`
only when its reason is `"RATE_LIMIT"`; both synthetic orchestrator
outcomes (global-timeout and loop-never-ran) are not retry-recommended. -/
theorem c5_retry_only_rate_limit :
    (∀ (req : RunRequest) (env : Env) (o : RunOutcome),
        run_once req env = Except.ok o → o.retry_recommended = true →
        o.reason = "RATE_LIMIT")
      ∧ timeoutOutcome.retry_recommended = false
      ∧ notExecutedOutcome.retry_recommended = false := by
  refine ⟨?_, rfl, rfl⟩
  intro req env o h hr
  obtain ⟨search, orderPage, cards, confirm⟩ := env
  rcases search with (⟨status, errStr⟩ | errStr) | sj
  · unfold run_once at h
    dsimp only at h
    injection h with h
    subst h
    exact searchHttpErrorOutcome_retry _ _ hr
  · unfold run_once at h
    dsimp only at h
    injection h with h
    subst h
    exact (Bool.false_ne_true hr).elim
  · unfold run_once at h
    dsimp only at h
    repeat' split at h
    all_goals
      first
      | exact Except.noConfusion h
      | (injection h with h
         subst h
         first
         | exact (Bool.false_ne_true hr).elim
         | exact emptyCatalogOutcome_retry _ hr
         | exact orderStage_retry rfl hr)

def c5Req : RunRequest :=
  { cookie := "", date := "d", shop_id := "s", title_keywords := [], time_keywords := [] }

/-- A search response whose blank catalog plus busy-keyword message is
classified `RATE_LIMIT` with `retry_recommended = True`. -/
def c5Env : Env :=
  { search := Sum.inr ⟨none, [], some "系统繁忙", some (-1)⟩
    orderPage := ⟨⟨200, "", ""⟩, ⟨[], []⟩⟩
    cards := Except.ok []
    confirm := ⟨200, "", "", none⟩ }

def c5Out : RunOutcome :=
  { success := false, reason := "RATE_LIMIT", http_status := none, code := some (-1)
    msg := some "系统繁忙", req_id := none, course := none, final_url := none
    evidence := some "search data missing class_list msg=系统繁忙"
    retry_recommended := true }

/-- Witness for C5: a concrete retry-recommended outcome, whose reason the
theorem forces to be `RATE_LIMIT`. -/
theorem c5_retry_only_rate_limit_witness :
    run_once c5Req c5Env = Except.ok c5Out ∧ c5Out.retry_recommended = true
      ∧ c5Out.reason = "RATE_LIMIT" :=
  ⟨by decide, rfl, c5_retry_only_rate_limit.1 c5Req c5Env c5Out (by decide) rfl⟩

/-! ## C6, C7, C9: the retry loop of `_run_single_task` -/

/-- Number of pipeline invocations recorded in a trace. -/
def countCalls (tr : List REvent) : Nat :=
  tr.countP (fun e => match e with | REvent.call _ => true | _ => false)

theorem countCalls_append (a b : List REvent) :
    countCalls (a ++ b) = countCalls a + countCalls b :=
  List.countP_append _ _ _

/-- The loop exits with `attempts` equal to one of the attempt numbers it
was given (the last iteration started). -/
theorem taskLoopGo_attempts_mem (M : Int) (D : Option ℚ) (C : Nat → ℚ)
    (P : Nat → RunOutcome) :
    ∀ (l : List Nat) (st : LoopSt), l ≠ [] →
      (taskLoopGo M D C P l st).attempts ∈ l := by
  intro l
  induction l with
  | nil => intro st h; exact absurd rfl h
  | cons a rest ih =>
    intro st _
    unfold taskLoopGo
    dsimp only
    split
    · exact List.mem_cons_self _ _
    · split
      · exact List.mem_cons_self _ _
      · split
        · exact List.mem_cons_self _ _
        · rcases rest with _ | ⟨b, t⟩
          · simp [taskLoopGo]
          · exact List.mem_cons_of_mem _ (ih _ (by simp))

/-- Each started iteration records at most one pipeline call, so the call
count never exceeds the progress of the attempt counter. -/
theorem taskLoopGo_calls_le (M : Int) (D : Option ℚ) (C : Nat → ℚ)
    (P : Nat → RunOutcome) :
    ∀ (n k : Nat) (st : LoopSt), st.attempts + 1 = k →
      countCalls (taskLoopGo M D C P (List.range' k n) st).trace + st.attempts
        ≤ countCalls st.trace + (taskLoopGo M D C P (List.range' k n) st).attempts := by
  intro n
  induction n with
  | zero => intro k st hk; simp [taskLoopGo]
  | succ n ih =>
    intro k st hk
    have hrange : List.range' k (n + 1) = k :: List.range' (k + 1) n := rfl
    rw [hrange]
    unfold taskLoopGo
    dsimp only
    have hone : countCalls [REvent.call k] = 1 := rfl
    have hzero : countCalls [REvent.sleep k] = 0 := rfl
    split
    · dsimp only; omega
    · split
      · dsimp only
        rw [countCalls_append, hone]
        omega
      · split
        · dsimp only
          rw [countCalls_append, hone]
          omega
        · have hih := ih (k + 1)
            { outcome := some (P k), attempts := k
              trace := st.trace ++ [REvent.call k] ++ [REvent.sleep k] } (by dsimp only)
          dsimp only at hih ⊢
          rw [countCalls_append, countCalls_append, hone, hzero] at hih
          omega

/-- Once an iteration starts with the deadline passed, the loop records
the synthetic timeout outcome at that iteration and every recorded call
belongs to an earlier iteration. -/
theorem taskLoopGo_deadline (M : Int) (D : Option ℚ) (C : Nat → ℚ) (P : Nat → RunOutcome) :
    ∀ (n k : Nat) (st : LoopSt), st.attempts + 1 = k →
      (∀ j, REvent.call j ∈ st.trace → j < k) →
      ∀ k0, k ≤ k0 → deadlinePassed D C k0 = true →
        k0 ≤ (taskLoopGo M D C P (List.range' k n) st).attempts →
        (taskLoopGo M D C P (List.range' k n) st).outcome = some timeoutOutcome
        ∧ (taskLoopGo M D C P (List.range' k n) st).attempts = k0
        ∧ ∀ j, REvent.call j ∈ (taskLoopGo M D C P (List.range' k n) st).trace → j < k0 := by
  intro n
  induction n with
  | zero =>
    intro k st hk htr k0 hkk0 hk0d hk0le
    have hrfl : taskLoopGo M D C P (List.range' k 0) st = st := rfl
    rw [hrfl] at hk0le
    omega
  | succ n ih =>
    intro k st hk htr k0 hkk0 hk0d hk0le
    have hrange : List.range' k (n + 1) = k :: List.range' (k + 1) n := rfl
    rw [hrange] at hk0le ⊢
    unfold taskLoopGo at hk0le ⊢
    dsimp only at hk0le ⊢
    split at hk0le
    · next hd =>
      rw [if_pos hd]
      dsimp only at hk0le ⊢
      refine ⟨rfl, by omega, ?_⟩
      intro j hj
      have := htr j hj
      omega
    · next hd =>
      rw [if_neg hd]
      split at hk0le
      · next hsucc =>
        rw [if_pos hsucc]
        dsimp only at hk0le ⊢
        exfalso
        have hkeq : k0 = k := by omega
        rw [hkeq] at hk0d
        exact hd hk0d
      · next hsucc =>
        rw [if_neg hsucc]
        split at hk0le
        · next hbrk =>
          rw [if_pos hbrk]
          dsimp only at hk0le ⊢
          exfalso
          have hkeq : k0 = k := by omega
          rw [hkeq] at hk0d
          exact hd hk0d
        · next hbrk =>
          rw [if_neg hbrk]
          try dsimp only at hk0le ⊢
          by_cases hke : k0 = k
          · exfalso
            rw [hke] at hk0d
            exact hd hk0d
          · refine ih (k + 1)
              { outcome := some (P k), attempts := k
                trace := st.trace ++ [REvent.call k] ++ [REvent.sleep k] }
              rfl ?_ k0 (by omega) hk0d hk0le
            intro j hj
            simp only [List.mem_append, List.mem_singleton] at hj
            rcases hj with (hj | hj) | hj
            · have := htr j hj
              omega
            · cases hj
              omega
            · cases hj

/-- **C6**. With `max_attempts = 3`, no deadline, and a pipeline that
always fails with a retry-recommended outcome, the loop performs exactly
the trace call-sleep-call-sleep-call: 3 pipeline invocations with the 2
sleeps strictly between consecutive attempts and none after the last. -/
theorem c6_three_attempts_two_sleeps :
    ∀ (spec : TaskRuntimeSpec) (clock : Nat → ℚ) (pipeline : Nat → RunOutcome),
      spec.max_attempts = 3 →
      (∀ k, (pipeline k).success = false) →
      (∀ k, (pipeline k).retry_recommended = true) →
      (_run_single_task spec none clock pipeline).2
          = [REvent.call 1, REvent.sleep 1, REvent.call 2, REvent.sleep 2, REvent.call 3]
        ∧ (_run_single_task spec none clock pipeline).1.attempts = 3 := by
  intro spec clock pipeline hmax hs hr
  unfold _run_single_task
  rw [hmax]
  have hlist : List.range' 1 (Int.toNat 3) = [1, 2, 3] := rfl
  rw [hlist]
  have e1 : (((1 : Nat) : Int) == (3 : Int)) = false := by decide
  have e2 : (((2 : Nat) : Int) == (3 : Int)) = false := by decide
  have e3 : (((3 : Nat) : Int) == (3 : Int)) = true := by decide
  simp [taskLoopGo, deadlinePassed, hs 1, hs 2, hs 3, hr 1, hr 2, hr 3, e1, e2, e3]

def baseAccount : AccountConfig := { name := "a", cookie := "c" }

/-- A concrete runtime spec with the given `max_attempts`. -/
def specWith (n : Int) : TaskRuntimeSpec :=
  { index := 0, account := baseAccount, original := {}, date := "d"
    title_keywords := [], time_keywords := [], strict_match := true
    allow_fallback := true, max_attempts := n, delay_ms := (120, 300) }

/-- An always-failing, retry-recommended pipeline outcome. -/
def failRetryOutcome : RunOutcome :=
  { success := false, reason := "RATE_LIMIT", http_status := none, code := none
    msg := none, req_id := none, course := none, retry_recommended := true }

/-- Witness for C6 at a concrete spec, clock and pipeline. -/
theorem c6_three_attempts_two_sleeps_witness :
    (_run_single_task (specWith 3) none (fun _ => 0) (fun _ => failRetryOutcome)).2
        = [REvent.call 1, REvent.sleep 1, REvent.call 2, REvent.sleep 2, REvent.call 3]
      ∧ (_run_single_task (specWith 3) none (fun _ => 0)
          (fun _ => failRetryOutcome)).1.attempts = 3 :=
  c6_three_attempts_two_sleeps (specWith 3) (fun _ => 0) (fun _ => failRetryOutcome)
    rfl (fun _ => rfl) (fun _ => rfl)

/-- **C7**. If the global deadline has already passed when retry-loop
iteration `k` begins (and iteration `k` is reached), `_run_single_task`
records the synthetic timeout outcome (`UNKNOWN`, "Global timeout
reached"), stops at attempt `k`, and every pipeline invocation in the
trace belongs to an iteration before `k`: the deadline is consulted only
at the top of each iteration and never interrupts an in-flight call. -/
theorem c7_deadline_is_advisory :
    ∀ (spec : TaskRuntimeSpec) (deadline : Option ℚ) (clock : Nat → ℚ)
      (pipeline : Nat → RunOutcome) (k : Nat),
      1 ≤ k →
      k ≤ (_run_single_task spec deadline clock pipeline).1.attempts →
      deadlinePassed deadline clock k = true →
      (_run_single_task spec deadline clock pipeline).1.outcome = timeoutOutcome
      ∧ (_run_single_task spec deadline clock pipeline).1.attempts = k
      ∧ ∀ j, REvent.call j ∈ (_run_single_task spec deadline clock pipeline).2 → j < k := by
  intro spec deadline clock pipeline k h1 hle hd
  unfold _run_single_task at hle ⊢
  dsimp only at hle ⊢
  have h := taskLoopGo_deadline spec.max_attempts deadline clock pipeline
    spec.max_attempts.toNat 1 ⟨none, 0, []⟩ rfl (fun j hj => absurd hj (by simp))
    k h1 hd hle
  refine ⟨?_, h.2.1, h.2.2⟩
  rw [h.1]
  rfl

/-- Witness for C7: with deadline 1 already passed at a clock stuck at 2,
the very first iteration records the timeout and no call is made. -/
theorem c7_deadline_is_advisory_witness :
    (_run_single_task (specWith 2) (some 1) (fun _ => 2)
        (fun _ => failRetryOutcome)).1.outcome = timeoutOutcome
      ∧ (_run_single_task (specWith 2) (some 1) (fun _ => 2)
          (fun _ => failRetryOutcome)).1.attempts = 1
      ∧ ∀ j, REvent.call j ∈ (_run_single_task (specWith 2) (some 1) (fun _ => 2)
          (fun _ => failRetryOutcome)).2 → j < 1 :=
  c7_deadline_is_advisory (specWith 2) (some 1) (fun _ => 2) (fun _ => failRetryOutcome) 1
    (by decide) (by decide) (by decide)

/-- **C9**. For `max_attempts ≥ 1` the record satisfies
`1 ≤ attempts ≤ max_attempts`, and the pipeline is invoked at most
`attempts` times. -/
theorem c9_attempt_bounds :
    ∀ (spec : TaskRuntimeSpec) (deadline : Option ℚ) (clock : Nat → ℚ)
      (pipeline : Nat → RunOutcome),
      1 ≤ spec.max_attempts →
      1 ≤ (_run_single_task spec deadline clock pipeline).1.attempts
      ∧ ((_run_single_task spec deadline clock pipeline).1.attempts : Int)
          ≤ spec.max_attempts
      ∧ countCalls (_run_single_task spec deadline clock pipeline).2
          ≤ (_run_single_task spec deadline clock pipeline).1.attempts := by
  intro spec deadline clock pipeline hm
  have htn : 1 ≤ spec.max_attempts.toNat := by omega
  have hne : List.range' 1 spec.max_attempts.toNat ≠ [] := by
    intro e
    have h2 : spec.max_attempts.toNat = 0 := by
      simpa using congrArg List.length e
    omega
  have hmem := taskLoopGo_attempts_mem spec.max_attempts deadline clock pipeline
    (List.range' 1 spec.max_attempts.toNat) ⟨none, 0, []⟩ hne
  rw [List.mem_range'_1] at hmem
  have hcalls := taskLoopGo_calls_le spec.max_attempts deadline clock pipeline
    spec.max_attempts.toNat 1 ⟨none, 0, []⟩ rfl
  unfold _run_single_task
  dsimp only
  refine ⟨hmem.1, ?_, ?_⟩
  · have hub : (taskLoopGo spec.max_attempts deadline clock pipeline
        (List.range' 1 spec.max_attempts.toNat) ⟨none, 0, []⟩).attempts
        ≤ spec.max_attempts.toNat := by omega
    omega
  · have hc0 : countCalls ([] : List REvent) = 0 := rfl
    rw [hc0] at hcalls
    omega

/-- Witness for C9 at a concrete single-attempt spec. -/
theorem c9_attempt_bounds_witness :
    1 ≤ (_run_single_task (specWith 1) none (fun _ => 0)
        (fun _ => failRetryOutcome)).1.attempts
      ∧ ((_run_single_task (specWith 1) none (fun _ => 0)
          (fun _ => failRetryOutcome)).1.attempts : Int) ≤ (specWith 1).max_attempts
      ∧ countCalls (_run_single_task (specWith 1) none (fun _ => 0)
          (fun _ => failRetryOutcome)).2
        ≤ (_run_single_task (specWith 1) none (fun _ => 0)
          (fun _ => failRetryOutcome)).1.attempts :=
  c9_attempt_bounds (specWith 1) none (fun _ => 0) (fun _ => failRetryOutcome) (by decide)

/-! ## C10: empty accounts list -/

/-- **C10**. With no configured accounts, `run_tasks` returns the empty
record list immediately: no runtime specs are built, no pipeline call and
no sleep takes place, whatever the tasks and overrides say. -/
theorem c10_empty_accounts :
    ∀ (config : AppConfig) (overrides : Option TaskOverrides)
      (shop_id_override : Option String) (clk : PyClock) (startTime : ℚ)
      (clock : TaskRuntimeSpec → Nat → ℚ)
      (pipeline : TaskRuntimeSpec → Nat → RunOutcome),
      config.accounts = [] →
      run_tasks config overrides shop_id_override clk startTime clock pipeline = ([], []) := by
  intro config overrides shop_id_override clk startTime clock pipeline h
  unfold run_tasks _build_runtime_specs
  rw [h]
  rfl

def c10Config : AppConfig :=
  { shop_id := "s", accounts := [], tasks := [{}, { max_attempts := 5 }]
    date_rule := some "plus_7_after_17", global_timeout_ms := some 1000, concurrency := 2 }

/-- Witness for C10: a config with tasks, a date rule, a timeout and
concurrency configured but no accounts yields `([], [])`. -/
theorem c10_empty_accounts_witness :
    run_tasks c10Config (some { date := some "2026-10-19" }) (some "shop2")
        ⟨10, "t", fun _ => "u"⟩ 0 (fun _ _ => 0) (fun _ _ => failRetryOutcome) = ([], []) :=
  c10_empty_accounts c10Config (some { date := some "2026-10-19" }) (some "shop2")
    ⟨10, "t", fun _ => "u"⟩ 0 (fun _ _ => 0) (fun _ _ => failRetryOutcome) rfl
